import Mathlib

/-!
Verification of the Dallas 1-wire bus driver `src/mmculib/u1wire/u1wire.c`.

The driver is embedded shallowly at three granularities:

* a line-level model of `u1wire_reset` and `u1wire_bit_write`, which records
  the sequence of pin/irq/delay events the code performs; the level sampled
  by `U1WIRE_TEST ()` is supplied by an environment function `Nat → Bool`
  giving the level observed at the n-th sample of the call;
* a bit-level model of `u1wire_byte_write` / `u1wire_byte_read`, which
  records (resp. consumes) the sequence of bit values transferred, LSB first;
* a byte-level model of `u1wire_read`, `u1wire_write`,
  `u1wire_rom_code_read`, `u1wire_command`, `u1wire_broadcast` and
  `u1wire_init`, which records the sequence of byte operations on the bus;
  the outcome of the embedded `u1wire_reset` call and the bytes answered by
  the device are supplied by a `BusEnv`.

Machine integers are modelled as `Nat` with explicit `% 256` where the C
code uses `uint8_t`, and `Int` for the signed 8-bit return codes.
-/

/-- Modelled from the spec: fault code `U1WIRE_ERR_BUS_LOW` ("line never
floats high on release"), defined in the header `u1wire.h` which is not part
of the sources; the spec (§7) requires the fault kinds to be distinct, so the
five codes are modelled as distinct positive constants. -/
def U1WIRE_ERR_BUS_LOW : Int := 1

/-- Modelled from the spec: fault code `U1WIRE_ERR_BUS_HIGH` ("line does not
go low when driven"), from the missing header `u1wire.h`. -/
def U1WIRE_ERR_BUS_HIGH : Int := 2

/-- Modelled from the spec: fault code `U1WIRE_ERR_BUS_STUCK` ("line does not
return high after the drive pulse"), from the missing header `u1wire.h`. -/
def U1WIRE_ERR_BUS_STUCK : Int := 3

/-- Modelled from the spec: fault code `U1WIRE_ERR_PRESENCE_SHORT` ("presence
pulse violated the lower timing bound"), from the missing header `u1wire.h`. -/
def U1WIRE_ERR_PRESENCE_SHORT : Int := 4

/-- Modelled from the spec: fault code `U1WIRE_ERR_PRESENCE_LONG` ("presence
pulse violated the upper timing bound"), from the missing header `u1wire.h`. -/
def U1WIRE_ERR_PRESENCE_LONG : Int := 5

/-- `U1WIRE_DELAY_OFFSET` from the enum in `u1wire.c`. -/
def U1WIRE_DELAY_OFFSET : Nat := 6

/-- Protocol command bytes from the enum in `u1wire.c`. -/
def U1WIRE_READ_ROM : Nat := 0x33

/-- `U1WIRE_SKIP_ROM` from the enum in `u1wire.c`. -/
def U1WIRE_SKIP_ROM : Nat := 0xcc

/-- `U1WIRE_MATCH_ROM` from the enum in `u1wire.c`. -/
def U1WIRE_MATCH_ROM : Nat := 0x55

/-- `U1WIRE_RECALL` from the enum in `u1wire.c`. -/
def U1WIRE_RECALL : Nat := 0xb8

/-- One observable line-level action of the driver:
`release` is `U1WIRE_RELEASE ()` (pin configured pulled-up, not driven),
`drive` is `U1WIRE_DRIVE ()` (pin driven low),
`delay n` is `DELAY_US (n)`,
`irqDisable`/`irqEnable` are `irq_global_disable/enable ()`,
`sample b` is a `U1WIRE_TEST ()` call that observed level `b`. -/
inductive Event : Type where
  | release : Event
  | drive : Event
  | delay : Nat → Event
  | irqDisable : Event
  | irqEnable : Event
  | sample : Bool → Event
deriving DecidableEq, Repr

/-- `u1wire_reset` from `u1wire.c`. The environment `env` gives the level
returned by the n-th `U1WIRE_TEST ()` call of this invocation (the code
samples at most 6 times). Returns the `int8_t` result together with the
trace of line-level events performed, in order. -/
def u1wire_reset (env : Nat → Bool) : Int × List Event :=
  let t1 := [Event.release, Event.delay 5, Event.sample (env 0)]
  if env 0 = false then
    (-U1WIRE_ERR_BUS_LOW, t1)
  else
    let t2 := t1 ++ [Event.irqDisable, Event.drive, Event.delay 250,
                     Event.sample (env 1)]
    if env 1 = true then
      (-U1WIRE_ERR_BUS_HIGH, t2 ++ [Event.release, Event.irqEnable])
    else
      let t3 := t2 ++ [Event.delay 250, Event.release, Event.delay 10,
                       Event.sample (env 2)]
      if env 2 = false then
        (-U1WIRE_ERR_BUS_STUCK, t3 ++ [Event.irqEnable])
      else
        let t4 := t3 ++ [Event.delay 60, Event.sample (env 3)]
        if env 3 = true then
          (0, t4 ++ [Event.irqEnable])
        else
          let t5 := t4 ++ [Event.delay 10, Event.sample (env 4)]
          if env 4 = true then
            (-U1WIRE_ERR_PRESENCE_SHORT, t5 ++ [Event.irqEnable])
          else
            let t6 := t5 ++ [Event.delay 240, Event.sample (env 5)]
            if env 5 = false then
              (-U1WIRE_ERR_PRESENCE_LONG, t6 ++ [Event.irqEnable])
            else
              (1, t6 ++ [Event.delay (480 - 240), Event.irqEnable])

/-- Recogniser for `irq_global_disable` events. -/
def isIrqDisable : Event → Bool
  | Event.irqDisable => true
  | _ => false

/-- Recogniser for `irq_global_enable` events. -/
def isIrqEnable : Event → Bool
  | Event.irqEnable => true
  | _ => false

/-- Recogniser for `U1WIRE_DRIVE` events. -/
def isDrive : Event → Bool
  | Event.drive => true
  | _ => false

/-- Whether the line is left driven low after executing a trace, starting
from driven-state `d` (`false` = released). -/
def lineDriven : List Event → Bool → Bool
  | [], d => d
  | Event.drive :: rest, _ => lineDriven rest true
  | Event.release :: rest, _ => lineDriven rest false
  | _ :: rest, d => lineDriven rest d

/-- C2: on every return path of `u1wire_reset` the number of
`irq_global_disable` calls equals the number of `irq_global_enable` calls
(so the interrupt mask on return equals the mask on entry), and the last
pin configuration is `U1WIRE_RELEASE` (the line is not left driven low). -/
theorem u1wire_reset_balanced (env : Nat → Bool) :
    ((u1wire_reset env).2.countP isIrqDisable
      = (u1wire_reset env).2.countP isIrqEnable)
    ∧ lineDriven (u1wire_reset env).2 false = false := by
  cases h0 : env 0 <;> cases h1 : env 1 <;> cases h2 : env 2 <;>
    cases h3 : env 3 <;> cases h4 : env 4 <;> cases h5 : env 5 <;>
    simp [u1wire_reset, h0, h1, h2, h3, h4, h5, lineDriven,
      List.countP, List.countP.go, isIrqDisable, isIrqEnable]

/-- C4: when the line floats high at the initial check, goes low while
driven, is back high after release, and is still high at the end of the
60 µs response window, `u1wire_reset` returns 0 (no device present), which
is distinct from every fault return value. -/
theorem u1wire_reset_no_device (env : Nat → Bool)
    (h0 : env 0 = true) (h1 : env 1 = false)
    (h2 : env 2 = true) (h3 : env 3 = true) :
    (u1wire_reset env).1 = 0
    ∧ (0 : Int) ∉ [-U1WIRE_ERR_BUS_LOW, -U1WIRE_ERR_BUS_HIGH,
        -U1WIRE_ERR_BUS_STUCK, -U1WIRE_ERR_PRESENCE_SHORT,
        -U1WIRE_ERR_PRESENCE_LONG] := by
  refine ⟨?_, by decide⟩
  simp [u1wire_reset, h0, h1, h2, h3]

/-- Witness for `u1wire_reset_no_device` at a concrete environment. -/
theorem u1wire_reset_no_device_witness :
    ((fun n => decide (n ≠ 1)) 0 = true ∧ (fun n => decide (n ≠ 1)) 1 = false
      ∧ (fun n => decide (n ≠ 1)) 2 = true ∧ (fun n => decide (n ≠ 1)) 3 = true)
    ∧ (u1wire_reset (fun n => decide (n ≠ 1))).1 = 0 :=
  ⟨⟨by decide, by decide, by decide, by decide⟩,
    (u1wire_reset_no_device (fun n => decide (n ≠ 1))
      (by decide) (by decide) (by decide) (by decide)).1⟩

/-- C5: `u1wire_reset` returns the presence-too-short fault exactly when the
first four samples pass (high, low, high, low: a device answered) but the
line is back high at the sample 10 µs later; it returns the
presence-too-long fault exactly when the device answered, was still low at
the extra 10 µs sample, and is still low 240 µs after that; the two fault
codes are distinct. -/
theorem u1wire_reset_presence_faults (env : Nat → Bool) :
    ((u1wire_reset env).1 = -U1WIRE_ERR_PRESENCE_SHORT ↔
      env 0 = true ∧ env 1 = false ∧ env 2 = true ∧ env 3 = false
        ∧ env 4 = true)
    ∧ ((u1wire_reset env).1 = -U1WIRE_ERR_PRESENCE_LONG ↔
      env 0 = true ∧ env 1 = false ∧ env 2 = true ∧ env 3 = false
        ∧ env 4 = false ∧ env 5 = false)
    ∧ U1WIRE_ERR_PRESENCE_SHORT ≠ U1WIRE_ERR_PRESENCE_LONG := by
  refine ⟨?_, ?_, by decide⟩ <;>
    cases h0 : env 0 <;> cases h1 : env 1 <;> cases h2 : env 2 <;>
      cases h3 : env 3 <;> cases h4 : env 4 <;> cases h5 : env 5 <;>
      simp [u1wire_reset, h0, h1, h2, h3, h4, h5,
        U1WIRE_ERR_BUS_LOW, U1WIRE_ERR_BUS_HIGH, U1WIRE_ERR_BUS_STUCK,
        U1WIRE_ERR_PRESENCE_SHORT, U1WIRE_ERR_PRESENCE_LONG]

set_option maxHeartbeats 1600000 in
/-- C6: `u1wire_reset` returns the bus-stuck-low fault exactly when the very
first sample (5 µs after the initial release) reads low, and on that path it
never masks interrupts and never drives the line; it returns the
bus-stuck-high fault exactly when the first sample reads high but the
sample after driving low for 250 µs still reads high. -/
theorem u1wire_reset_stuck_faults (env : Nat → Bool) :
    ((u1wire_reset env).1 = -U1WIRE_ERR_BUS_LOW ↔ env 0 = false)
    ∧ (env 0 = false →
        (u1wire_reset env).2.countP isIrqDisable = 0
        ∧ (u1wire_reset env).2.countP isDrive = 0)
    ∧ ((u1wire_reset env).1 = -U1WIRE_ERR_BUS_HIGH ↔
        env 0 = true ∧ env 1 = true) := by
  refine ⟨?_, ?_, ?_⟩ <;>
    cases h0 : env 0 <;> cases h1 : env 1 <;> cases h2 : env 2 <;>
      cases h3 : env 3 <;> cases h4 : env 4 <;> cases h5 : env 5 <;>
      simp [u1wire_reset, h0, h1, h2, h3, h4, h5,
        List.countP, List.countP.go, isIrqDisable, isDrive,
        U1WIRE_ERR_BUS_LOW, U1WIRE_ERR_BUS_HIGH, U1WIRE_ERR_BUS_STUCK,
        U1WIRE_ERR_PRESENCE_SHORT, U1WIRE_ERR_PRESENCE_LONG]

/-- Witness for `u1wire_reset_stuck_faults`: on the all-low environment the
bus-stuck-low fault is returned. -/
theorem u1wire_reset_stuck_faults_witness :
    (u1wire_reset (fun _ => false)).1 = -U1WIRE_ERR_BUS_LOW :=
  (u1wire_reset_stuck_faults (fun _ => false)).1.mpr rfl

/-- `u1wire_bit_write` from `u1wire.c`: the trace of line-level events of one
bit-write slot for bit `value` (the C argument is a `uint8_t`; the bit is
`value & 0x01` as passed by `u1wire_byte_write`, modelled as a `Bool`). -/
def u1wire_bit_write (value : Bool) : List Event :=
  [Event.irqDisable, Event.drive, Event.delay (10 - U1WIRE_DELAY_OFFSET)]
    ++ (if value then [Event.release] else [])
    ++ [Event.delay (60 - U1WIRE_DELAY_OFFSET), Event.release,
        Event.irqEnable]

/-- Total time (sum of delay arguments) for which the line is held driven
low over a trace, starting from driven-state `d`. -/
def lowTimeFrom : Bool → List Event → Nat
  | _, [] => 0
  | d, Event.delay n :: rest =>
      (if d then n else 0) + lowTimeFrom d rest
  | _, Event.drive :: rest => lowTimeFrom true rest
  | _, Event.release :: rest => lowTimeFrom false rest
  | d, _ :: rest => lowTimeFrom d rest

/-- Total driven-low time of a trace that starts with the line released. -/
def lowTime (es : List Event) : Nat := lowTimeFrom false es

/-- C9: in one `u1wire_bit_write` slot, the total time the line is held
driven low when writing a 1 is strictly less than when writing a 0, and both
are at most the 60 µs slot budget. -/
theorem u1wire_bit_write_low_times :
    lowTime (u1wire_bit_write true) < lowTime (u1wire_bit_write false)
    ∧ lowTime (u1wire_bit_write true) ≤ 60
    ∧ lowTime (u1wire_bit_write false) ≤ 60 := by decide

/-- Loop body of `u1wire_byte_write` from `u1wire.c`: `n` remaining
iterations of `u1wire_bit_write (value & 0x01); value >>= 1;`, returning the
bit values passed to `u1wire_bit_write`, in order. -/
def u1wire_byte_write_go : Nat → Nat → List Bool
  | 0, _ => []
  | n + 1, value => (value % 2 == 1) :: u1wire_byte_write_go n (value / 2)

/-- `u1wire_byte_write` from `u1wire.c`: the 8 bit values written on the
bus for byte `value`, least-significant bit first. -/
def u1wire_byte_write (value : Nat) : List Bool :=
  u1wire_byte_write_go 8 (value % 256)

/-- Loop body of `u1wire_byte_read` from `u1wire.c`: `n` remaining
iterations of `value >>= 1; if (u1wire_bit_read ()) value |= BIT (7);`,
with the successive values returned by `u1wire_bit_read` supplied by the
list `bits`. -/
def u1wire_byte_read_go : Nat → Nat → List Bool → Nat
  | 0, value, _ => value
  | n + 1, value, bits =>
      u1wire_byte_read_go n
        (if bits.headD false then value / 2 ||| 128 else value / 2)
        bits.tail

/-- `u1wire_byte_read` from `u1wire.c`: the byte composed from 8 successive
bus bits, least-significant bit first, shifting each new bit in at the top. -/
def u1wire_byte_read (bits : List Bool) : Nat :=
  u1wire_byte_read_go 8 0 bits

set_option maxRecDepth 8192 in
/-- C1: for every 8-bit value `v`, reading a byte back from exactly the bit
sequence that `u1wire_byte_write` emits for `v` (a loopback) yields `v`. -/
theorem u1wire_byte_roundtrip (v : Nat) (h : v < 256) :
    u1wire_byte_read (u1wire_byte_write v) = v := by
  have hall : ∀ w : Fin 256,
      u1wire_byte_read (u1wire_byte_write w.val) = w.val := by decide
  exact hall ⟨v, h⟩

/-- Witness for `u1wire_byte_roundtrip` at the concrete byte 0xa5. -/
theorem u1wire_byte_roundtrip_witness :
    165 < 256 ∧ u1wire_byte_read (u1wire_byte_write 165) = 165 :=
  ⟨by decide, u1wire_byte_roundtrip 165 (by decide)⟩

/-- One byte-granularity bus operation performed by the buffer and session
functions of `u1wire.c`: a `u1wire_reset` call that returned `ret`, a
`u1wire_byte_write` of value `v`, or a `u1wire_byte_read` that returned
`v`. -/
inductive BusOp : Type where
  | resetOp : Int → BusOp
  | byteWrite : Nat → BusOp
  | byteRead : Nat → BusOp
deriving DecidableEq, Repr

/-- The value a `uint8_t` object holding `n % 256` converts to when returned
through the `int8_t` return type of `u1wire_read` / `u1wire_write`
(two's-complement wrap, as on the AVR/ARM targets of this library). -/
def int8_of_uint8 (n : Nat) : Int :=
  if n % 256 < 128 then (n % 256 : Int) else (n % 256 : Int) - 256

/-- Loop body of `u1wire_read` from `u1wire.c`: `n` remaining iterations of
`*buffer++ = u1wire_byte_read ();` with the write cursor at buffer index
`i`; `reads k` is the byte answered by the device at the k-th
`u1wire_byte_read` of this call. Returns the updated buffer and the byte
operations performed. -/
def u1wire_read_go (reads : Nat → Nat) :
    Nat → Nat → List Nat → List Nat × List BusOp
  | _, 0, buf => (buf, [])
  | i, n + 1, buf =>
      let b := reads i % 256
      let rest := u1wire_read_go reads (i + 1) n (buf.set i b)
      (rest.1, BusOp.byteRead b :: rest.2)

/-- `u1wire_read` from `u1wire.c`: reads `size` bytes (a `uint8_t`, hence
`size % 256`) into the buffer and returns the loop counter `i`, a `uint8_t`
equal to `size`, converted through the `int8_t` return type. -/
def u1wire_read (reads : Nat → Nat) (buf : List Nat) (size : Nat) :
    List Nat × List BusOp × Int :=
  let r := u1wire_read_go reads 0 (size % 256) buf
  (r.1, r.2, int8_of_uint8 size)

/-- Loop body of `u1wire_write` from `u1wire.c`: `n` remaining iterations of
`u1wire_byte_write (*buffer++);` with the read cursor at buffer index `i`.
Returns the byte operations performed. -/
def u1wire_write_go : Nat → Nat → List Nat → List BusOp
  | _, 0, _ => []
  | i, n + 1, buf =>
      BusOp.byteWrite (buf.getD i 0 % 256) :: u1wire_write_go (i + 1) n buf

/-- `u1wire_write` from `u1wire.c`: writes `size` bytes (a `uint8_t`, hence
`size % 256`) from the buffer and returns the loop counter `i`, a `uint8_t`
equal to `size`, converted through the `int8_t` return type. -/
def u1wire_write (buf : List Nat) (size : Nat) : List BusOp × Int :=
  (u1wire_write_go 0 (size % 256) buf, int8_of_uint8 size)

set_option maxRecDepth 16384 in
/-- C8 (code bug): at size 128 both `u1wire_read` and `u1wire_write`
transfer exactly 128 bytes, but the returned count is -128, not 128 — the
`uint8_t` loop counter is narrowed through the `int8_t` return type, so for
sizes 128..255 the function cannot return the length requested, contrary to
its own doc comment ("number of bytes read/written"). -/
theorem u1wire_read_write_return_bug :
    ((u1wire_read (fun _ => 0) (List.replicate 128 0) 128).2.1.length = 128
      ∧ (u1wire_read (fun _ => 0) (List.replicate 128 0) 128).2.2 = -128
      ∧ (-128 : Int) ≠ 128)
    ∧ ((u1wire_write (List.replicate 128 0) 128).1.length = 128
      ∧ (u1wire_write (List.replicate 128 0) 128).2 = -128) := by
  refine ⟨⟨?_, by decide, by decide⟩, ⟨?_, by decide⟩⟩ <;> decide

/-- C10: with size 0, `u1wire_read` performs no byte operation, leaves the
buffer untouched and returns 0; `u1wire_write` performs no byte operation
and returns 0. -/
theorem u1wire_read_write_size_zero (reads : Nat → Nat) (buf : List Nat) :
    u1wire_read reads buf 0 = (buf, [], 0)
    ∧ u1wire_write buf 0 = ([], 0) := by
  constructor <;> rfl

/-- A one-wire device structure (`u1wire_obj_t` / `u1wire_dev_t`): holds the
8-byte `rom_code` array filled in by discovery. The array is modelled as a
list of bytes of length 8. -/
structure u1wire_obj_t : Type where
  rom_code : List Nat
deriving DecidableEq, Repr

/-- Environment for the byte-granularity session functions: the value the
embedded `u1wire_reset` call returns, and the byte answered by the device at
the k-th byte read of the operation. -/
structure BusEnv : Type where
  resetRet : Int
  reads : Nat → Nat

/-- `u1wire_rom_code_read` from `u1wire.c`: reset; if the reset result is
not 1 return it unchanged; otherwise write `U1WIRE_READ_ROM`, read
`sizeof (dev->rom_code)` = 8 bytes into `dev->rom_code` with `u1wire_read`,
and write the dummy `U1WIRE_RECALL` command. Returns the `int8_t` result,
the updated device and the byte operations performed. -/
def u1wire_rom_code_read (env : BusEnv) (dev : u1wire_obj_t) :
    Int × u1wire_obj_t × List BusOp :=
  if env.resetRet ≠ 1 then
    (env.resetRet, dev, [BusOp.resetOp env.resetRet])
  else
    let r := u1wire_read env.reads dev.rom_code 8
    (1, ⟨r.1⟩,
      BusOp.resetOp env.resetRet :: BusOp.byteWrite U1WIRE_READ_ROM ::
        (r.2.1 ++ [BusOp.byteWrite U1WIRE_RECALL]))

/-- `u1wire_command` from `u1wire.c`: reset; if the reset result is not 1
return it unchanged; otherwise write `U1WIRE_MATCH_ROM`, write the 8 bytes
of `dev->rom_code` with `u1wire_write`, and write the command byte (a
`uint8_t`, hence `% 256`). -/
def u1wire_command (env : BusEnv) (dev : u1wire_obj_t) (command : Nat) :
    Int × List BusOp :=
  if env.resetRet ≠ 1 then
    (env.resetRet, [BusOp.resetOp env.resetRet])
  else
    let w := u1wire_write dev.rom_code 8
    (1, BusOp.resetOp env.resetRet :: BusOp.byteWrite U1WIRE_MATCH_ROM ::
      (w.1 ++ [BusOp.byteWrite (command % 256)]))

/-- `u1wire_broadcast` from `u1wire.c`: reset; if the reset result is not 1
return it unchanged; otherwise write `U1WIRE_SKIP_ROM` and the command
byte. -/
def u1wire_broadcast (env : BusEnv) (command : Nat) : Int × List BusOp :=
  if env.resetRet ≠ 1 then
    (env.resetRet, [BusOp.resetOp env.resetRet])
  else
    (1, [BusOp.resetOp env.resetRet, BusOp.byteWrite U1WIRE_SKIP_ROM,
      BusOp.byteWrite (command % 256)])

/-- `u1wire_init` from `u1wire.c`: releases the bus (a pin configuration,
invisible at byte granularity) and delegates to `u1wire_rom_code_read`. -/
def u1wire_init (env : BusEnv) (device : u1wire_obj_t) :
    Int × u1wire_obj_t × List BusOp :=
  u1wire_rom_code_read env device

/-- Recogniser for the byte-transfer operations (byte write or byte read). -/
def isByteOp : BusOp → Bool
  | BusOp.byteWrite _ => true
  | BusOp.byteRead _ => true
  | BusOp.resetOp _ => false

/-- C3: each multi-phase operation (`u1wire_rom_code_read`, also reached via
`u1wire_init`, `u1wire_command`, `u1wire_broadcast`) performs a reset first
(the trace starts with the reset operation), and when that reset returns a
value other than 1 the operation returns that value unchanged and performs
no byte write or byte read. -/
theorem u1wire_session_reset_gate (env : BusEnv) (dev : u1wire_obj_t)
    (command : Nat) :
    ((u1wire_rom_code_read env dev).2.2.head? = some (BusOp.resetOp env.resetRet)
      ∧ (u1wire_init env dev).2.2.head? = some (BusOp.resetOp env.resetRet)
      ∧ (u1wire_command env dev command).2.head? = some (BusOp.resetOp env.resetRet)
      ∧ (u1wire_broadcast env command).2.head? = some (BusOp.resetOp env.resetRet))
    ∧ (env.resetRet ≠ 1 →
        ((u1wire_rom_code_read env dev).1 = env.resetRet
          ∧ (u1wire_rom_code_read env dev).2.2.countP isByteOp = 0)
        ∧ ((u1wire_init env dev).1 = env.resetRet
          ∧ (u1wire_init env dev).2.2.countP isByteOp = 0)
        ∧ ((u1wire_command env dev command).1 = env.resetRet
          ∧ (u1wire_command env dev command).2.countP isByteOp = 0)
        ∧ ((u1wire_broadcast env command).1 = env.resetRet
          ∧ (u1wire_broadcast env command).2.countP isByteOp = 0)) := by
  by_cases h : env.resetRet = 1 <;>
    simp [u1wire_rom_code_read, u1wire_init, u1wire_command,
      u1wire_broadcast, h, List.countP, List.countP.go, isByteOp]

/-- Witness for `u1wire_session_reset_gate`: with a reset outcome of 0 (no
device) the broadcast operation returns 0 and performs no byte transfer. -/
theorem u1wire_session_reset_gate_witness :
    (u1wire_broadcast ⟨0, fun _ => 0⟩ 0).1 = (0 : Int)
    ∧ (u1wire_broadcast ⟨0, fun _ => 0⟩ 0).2.countP isByteOp = 0 :=
  ((u1wire_session_reset_gate ⟨0, fun _ => 0⟩ ⟨[]⟩ 0).2 (by decide)).2.2.2

/-- The values written on the bus over a byte-operation trace, in order. -/
def writtenBytes (ops : List BusOp) : List Nat :=
  ops.filterMap fun
    | BusOp.byteWrite v => some v
    | _ => none

/-- The values read from the bus over a byte-operation trace, in order. -/
def busReadBytes (ops : List BusOp) : List Nat :=
  ops.filterMap fun
    | BusOp.byteRead v => some v
    | _ => none

/-- C7: if discovery succeeds (the 8 bytes answered after Read-ROM are
stored in `rom_code`) and a subsequent `u1wire_command` on that device also
passes its reset, then the byte values the command writes on the bus are
exactly: the Match-ROM byte, then the same 8 bytes in the same order as
they were read during discovery, then the caller's command byte. -/
theorem u1wire_command_replays_rom_code (env1 env2 : BusEnv)
    (dev : u1wire_obj_t) (command : Nat)
    (hlen : dev.rom_code.length = 8)
    (h1 : env1.resetRet = 1) (h2 : env2.resetRet = 1) :
    writtenBytes (u1wire_command env2 (u1wire_rom_code_read env1 dev).2.1
        command).2
      = U1WIRE_MATCH_ROM ::
          (busReadBytes (u1wire_rom_code_read env1 dev).2.2
            ++ [command % 256])
    ∧ (busReadBytes (u1wire_rom_code_read env1 dev).2.2).length = 8 := by
  obtain ⟨rc⟩ := dev
  simp only [u1wire_obj_t.mk.injEq] at hlen ⊢
  match rc, hlen with
  | [a0, a1, a2, a3, a4, a5, a6, a7], _ =>
    simp [u1wire_rom_code_read, u1wire_command, h1, h2, u1wire_read,
      u1wire_write, u1wire_read_go, u1wire_write_go, writtenBytes,
      busReadBytes]

/-- Witness for `u1wire_command_replays_rom_code` at concrete environments:
discovery answering bytes 0,1,...,7 followed by a command 0x44 writes
Match-ROM, then 0,1,...,7, then 0x44. -/
theorem u1wire_command_replays_rom_code_witness :
    ([0, 0, 0, 0, 0, 0, 0, 0] : List Nat).length = 8
    ∧ writtenBytes (u1wire_command ⟨1, fun _ => 0⟩
          (u1wire_rom_code_read ⟨1, fun k => k⟩ ⟨[0, 0, 0, 0, 0, 0, 0, 0]⟩).2.1
          68).2
        = U1WIRE_MATCH_ROM ::
            (busReadBytes
                (u1wire_rom_code_read ⟨1, fun k => k⟩
                  ⟨[0, 0, 0, 0, 0, 0, 0, 0]⟩).2.2
              ++ [68 % 256]) :=
  ⟨by decide,
    (u1wire_command_replays_rom_code ⟨1, fun k => k⟩ ⟨1, fun _ => 0⟩
      ⟨[0, 0, 0, 0, 0, 0, 0, 0]⟩ 68 (by decide) rfl rfl).1⟩
